import Mathlib

/-!
Verification of the PyGameJr actor/camera/animation core.

Shallow embedding of `pygamejr/common.py`, `pygamejr/actor.py` and the
window-close handling of `pygamejr/game.py`.  Python floats are modelled as
real numbers where trigonometry or square roots occur (camera, glide) and as
rationals elsewhere, so that those definitions stay executable; wall-clock
reads (`timeit.default_timer()`) are passed in as explicit `now` arguments;
Python exceptions are modelled with `Except String` or an explicit error
component.
-/

/- ----------------------------------------------------------------- -/
/- Animation: `AnimationSpec` from common.py lines 130-163.           -/
/- ----------------------------------------------------------------- -/

open Classical in
open Classical in
open Classical in
/-- Embedding of the `AnimationSpec` dataclass (common.py lines 130-136).
`image_index` is an `Int` because Python ints are unbounded and signed;
times are rationals standing for the float seconds of
`timeit.default_timer()`. -/
structure AnimationSpec where
  frame_time_s : ℚ
  last_frame_time : ℚ
  loop : Bool
  started : Bool
  image_index : ℤ
deriving DecidableEq

/-- `AnimationSpec.start` (common.py lines 141-146); `now` stands for the
`timeit.default_timer()` read on line 146. -/
def AnimationSpec.start (a : AnimationSpec) (loop : Bool) (from_index : ℤ)
    (frame_time_s : ℚ) (now : ℚ) : AnimationSpec :=
  { a with started := true, loop := loop, frame_time_s := frame_time_s,
           image_index := from_index, last_frame_time := now }

/-- `AnimationSpec.stop` (common.py lines 148-149). -/
def AnimationSpec.stop (a : AnimationSpec) : AnimationSpec :=
  { a with started := false }

/-- `AnimationSpec.update` (common.py lines 151-163); `now` stands for the
`timeit.default_timer()` read on line 154.  The source tests
`current_time - self.last_frame_time > self.frame_time_s`, then increments
`image_index`, and on reaching `image_count` either wraps to 0 (`loop`) or
steps back to the last frame and stops. -/
def AnimationSpec.update (a : AnimationSpec) (image_count : ℤ) (now : ℚ) :
    AnimationSpec :=
  if ¬a.started then a
  else if a.frame_time_s < now - a.last_frame_time then
    let b := { a with last_frame_time := now, image_index := a.image_index + 1 }
    if image_count ≤ b.image_index then
      if b.loop then { b with image_index := 0 }
      else AnimationSpec.stop { b with image_index := b.image_index - 1 }
    else b
  else a

/-- A sequence of `update` calls at the given wall-clock times. -/
def runUpdates (a : AnimationSpec) (image_count : ℤ) (times : List ℚ) :
    AnimationSpec :=
  times.foldl (fun s τ => s.update image_count τ) a

/-- `advancingb t last ts` holds when every call time in `ts` is more than a
frame time `t` after its predecessor (the first relative to `last`).  Under
this schedule every `update` call of a looping started animation advances
exactly one frame: it is the "one update call per frame advance" timing of
the spec. -/
def advancingb (t : ℚ) : ℚ → List ℚ → Bool
  | _, [] => true
  | last, τ :: rest => (decide (t < τ - last)) && advancingb t τ rest

/- ----------------------------------------------------------------- -/
/- Costume: `CostumeSpec` from common.py lines 191-249.               -/
/- ----------------------------------------------------------------- -/

/-- An image is abstracted to its `get_size()` pair (width, height) —
the only datum of a `pygame.Surface` the verified operations consult. -/
abbrev Img := ℕ × ℕ

/-- Embedding of the `CostumeSpec` dataclass (common.py lines 191-201),
restricted to the fields the verified operations read: `_images`,
`_scaled_images` and `animation`.  `add_images` appends to both lists in
lockstep and the `scale_xy` setter rebuilds `_scaled_images` from
`_images`, so both lists always have equal length. -/
structure CostumeSpec where
  images : List Img
  scaled_images : List Img
  animation : AnimationSpec
deriving DecidableEq

/-- Python list indexing `l[i]`: non-negative indexes from the front,
negative indexes from the back, out of range raises `IndexError`
(modelled as `none`). -/
def pyGet {α : Type} (l : List α) (i : ℤ) : Option α :=
  if 0 ≤ i then l.get? i.toNat
  else if 0 ≤ i + l.length then l.get? (i + l.length).toNat
  else none

/-- `CostumeSpec.get_image` (common.py lines 231-232): indexes
`_scaled_images` at the animation's current frame index. -/
def CostumeSpec.get_image (c : CostumeSpec) : Option Img :=
  pyGet c.scaled_images c.animation.image_index

/-- `CostumeSpec.update` (common.py lines 228-229): delegates to the
animation with `len(self._images)`. -/
def CostumeSpec.update (c : CostumeSpec) (now : ℚ) : CostumeSpec :=
  { c with animation := c.animation.update c.images.length now }

/-- A sequence of `CostumeSpec.update` calls at the given times. -/
def runCostumeUpdates (c : CostumeSpec) (times : List ℚ) : CostumeSpec :=
  times.foldl (fun s τ => s.update τ) c

/- ----------------------------------------------------------------- -/
/- Shapes and the fit operations (actor.py lines 356-377).            -/
/- ----------------------------------------------------------------- -/

/-- The pymunk shape kinds the actor layer dispatches on, plus `other`
for any shape class outside the three handled ones.  Geometry is over ℚ
(the arithmetic involved is field arithmetic only). -/
inductive PShape where
  | circle (radius : ℚ) (offset : ℚ × ℚ)
  | poly (vertices : List (ℚ × ℚ)) (radius : ℚ)
  | segment (a b : ℚ × ℚ) (radius : ℚ)
  | other
deriving DecidableEq

/-- Python `float` exposes no method named `iszero`, and the `CostumeSpec`
dataclass defines no attribute named `images` (its fields are `_images` and
`_scaled_images`), so attribute lookups of those names raise
`AttributeError`. -/
def attrErrorImages : String :=
  "AttributeError: CostumeSpec object has no attribute images"

/-- `Actor.fit_to_image` (actor.py lines 356-370) as written: when a current
costume exists, line 357 evaluates `len(self.current_costume.images)`, and
`CostumeSpec` has no `images` attribute (common.py defines `_images`), so
the call raises `AttributeError` before any shape is inspected.  `width`
and `height` stand for the pymunk bounding-box results `self.width()` /
`self.height()`. -/
def Actor.fit_to_image (shape : PShape) (current_costume : Option CostumeSpec)
    (width height : ℚ) : Except String PShape :=
  match current_costume with
  | none => Except.ok shape
  | some _ => Except.error attrErrorImages

/-- `Actor.fit_to_image` with the evident intent of line 357-358 restored
(`_images` in place of the nonexistent `images` attribute), kept otherwise
line for line: `Circle` gets radius `max(w,h)/2`, `Poly` vertices and
`Segment` endpoints are rescaled by `new/old` — and a shape of any other
kind falls through the `if/elif` chain with no `else`, unchanged and
without error. -/
def Actor.fit_to_image_intended (shape : PShape)
    (current_costume : Option CostumeSpec) (width height : ℚ) :
    Except String PShape :=
  match current_costume with
  | none => Except.ok shape
  | some c =>
    match c.images with
    | [] => Except.ok shape
    | (nw, nh) :: _ =>
      match shape with
      | PShape.circle _ off =>
          Except.ok (PShape.circle (max (nw : ℚ) (nh : ℚ) / 2) off)
      | PShape.poly vs r =>
          if width = 0 ∨ height = 0 then
            Except.error "ZeroDivisionError: float division by zero"
          else
            Except.ok (PShape.poly
              (vs.map (fun v => (v.1 * ((nw : ℚ) / width), v.2 * ((nh : ℚ) / height)))) r)
      | PShape.segment a b r =>
          if width = 0 ∨ height = 0 then
            Except.error "ZeroDivisionError: float division by zero"
          else
            Except.ok (PShape.segment
              (a.1 * (nw : ℚ) / width, a.2 * (nh : ℚ) / height)
              (b.1 * (nw : ℚ) / width, b.2 * (nh : ℚ) / height) r)
      | PShape.other => Except.ok shape

/-- `Actor.fit_image` (actor.py lines 372-377): a no-op unless a current
costume with at least one image exists; otherwise reads the current frame
image's size and assigns the costume a new `scale_xy`.  It never inspects
the shape kind.  The result is the `scale_xy` pair assigned, `none` for
the no-op paths. -/
def Actor.fit_image (current_costume : Option CostumeSpec)
    (width height : ℚ) : Except String (Option (ℚ × ℚ)) :=
  match current_costume with
  | none => Except.ok none
  | some c =>
    if c.images.length = 0 then Except.ok none
    else
      match c.get_image with
      | none => Except.error "IndexError: list index out of range"
      | some wh =>
        if (wh.1 : ℚ) = 0 ∨ (wh.2 : ℚ) = 0 then
          Except.error "ZeroDivisionError: float division by zero"
        else
          Except.ok (some (width / (wh.1 : ℚ), height / (wh.2 : ℚ)))

/- ----------------------------------------------------------------- -/
/- Camera: common.py lines 266-327.                                   -/
/- ----------------------------------------------------------------- -/

/-- A 2x2 real matrix, row-major: row 0 is (a b), row 1 is (c d). -/
structure Mat2 where
  a : ℝ
  b : ℝ
  c : ℝ
  d : ℝ

/-- `np.eye(2)`. -/
def Mat2.eye : Mat2 := ⟨1, 0, 0, 1⟩

/-- Matrix transpose. -/
def Mat2.transpose (m : Mat2) : Mat2 := ⟨m.a, m.c, m.b, m.d⟩

/-- `np.dot(p, M)` for a row vector `p`: the row vector `p * M`. -/
def rowMul (p : ℝ × ℝ) (m : Mat2) : ℝ × ℝ :=
  (p.1 * m.a + p.2 * m.c, p.1 * m.b + p.2 * m.d)

/-- `np.radians` / `math.radians`: degrees to radians. -/
noncomputable def radians (x : ℝ) : ℝ := x * (Real.pi / 180)

/-- Embedding of the `Camera` class state (common.py lines 266-271):
the explicit fields `bottom_left`, `angle` (degrees), `scale`, and the
derived fields `theta`, `rotation_matrix`, `scaling_matrix` cached by
`_update_transform`. -/
structure Camera where
  bottom_left : ℝ × ℝ
  angle : ℝ
  scale : ℝ
  theta : ℝ
  rotation_matrix : Mat2
  scaling_matrix : Mat2

/-- `Camera._update_transform` (common.py lines 273-285): recomputes the
cached `theta`, `rotation_matrix` (identity fast path when `angle == 0`)
and `scaling_matrix` from the current `angle` and `scale`. -/
noncomputable def Camera.update_transform (c : Camera) : Camera :=
  if c.angle = 0 then
    { c with theta := 0, rotation_matrix := Mat2.eye,
             scaling_matrix := ⟨c.scale, 0, 0, c.scale⟩ }
  else
    { c with theta := radians c.angle,
             rotation_matrix := ⟨Real.cos (radians c.angle), -Real.sin (radians c.angle),
                                 Real.sin (radians c.angle), Real.cos (radians c.angle)⟩,
             scaling_matrix := ⟨c.scale, 0, 0, c.scale⟩ }

/-- `Camera.__init__` (common.py lines 267-271): zero pan, zero angle, unit
scale, then `_update_transform`.  The derived fields before that call are
unset in Python; any value works since `_update_transform` overwrites them. -/
noncomputable def Camera.new : Camera :=
  Camera.update_transform ⟨(0, 0), 0, 1, 0, Mat2.eye, Mat2.eye⟩

/-- `Camera.apply` (common.py lines 287-303): identity fast path when
`angle == 0 and scale == 1.0 and bottom_left == Vec2d.zero()`; otherwise
each row vector is multiplied by `scaling_matrix`, then by
`rotation_matrix.T`, then translated by `-bottom_left`, gated by the three
boolean flags (all `True` by default at call sites). -/
noncomputable def Camera.apply (c : Camera) (points : List (ℝ × ℝ))
    (translate scale rotate : Bool) : List (ℝ × ℝ) :=
  if c.angle = 0 ∧ c.scale = 1 ∧ c.bottom_left = (0, 0) then points
  else
    points.map (fun p =>
      let p1 := if scale then rowMul p c.scaling_matrix else p
      let p2 := if rotate then rowMul p1 c.rotation_matrix.transpose else p1
      if translate then p2 - c.bottom_left else p2)

/-- `Camera.move_by` (common.py lines 305-307). -/
noncomputable def Camera.move_by (c : Camera) (delta : ℝ × ℝ) : Camera :=
  Camera.update_transform { c with bottom_left := c.bottom_left + delta }

/-- `Camera.move_to` (common.py lines 308-310). -/
noncomputable def Camera.move_to (c : Camera) (pos : ℝ × ℝ) : Camera :=
  Camera.update_transform { c with bottom_left := pos }

/-- `Camera.turn_by` (common.py lines 311-313). -/
noncomputable def Camera.turn_by (c : Camera) (angle : ℝ) : Camera :=
  Camera.update_transform { c with angle := c.angle + angle }

/-- `Camera.turn_to` (common.py lines 314-316). -/
noncomputable def Camera.turn_to (c : Camera) (angle : ℝ) : Camera :=
  Camera.update_transform { c with angle := angle }

/-- `Camera.zoom_by` (common.py lines 317-319). -/
noncomputable def Camera.zoom_by (c : Camera) (scale : ℝ) : Camera :=
  Camera.update_transform { c with scale := c.scale * scale }

/-- `Camera.zoom_to` (common.py lines 320-322). -/
noncomputable def Camera.zoom_to (c : Camera) (scale : ℝ) : Camera :=
  Camera.update_transform { c with scale := scale }

/-- `Camera.reset` (common.py lines 323-327). -/
noncomputable def Camera.reset (c : Camera) : Camera :=
  Camera.update_transform { c with bottom_left := (0, 0), angle := 0, scale := 1 }

/-- The specification-side transform of one point: rotation about the
origin by `θ` applied to the point, as a column vector. -/
noncomputable def rotatePoint (θ : ℝ) (q : ℝ × ℝ) : ℝ × ℝ :=
  (Real.cos θ * q.1 - Real.sin θ * q.2, Real.sin θ * q.1 + Real.cos θ * q.2)

/- ----------------------------------------------------------------- -/
/- Glide: `Actor.glide_to` from actor.py lines 187-192.               -/
/- ----------------------------------------------------------------- -/

/-- `Vec2d.length`: the Euclidean length of a 2-vector. -/
noncomputable def vlen (v : ℝ × ℝ) : ℝ := Real.sqrt (v.1 ^ 2 + v.2 ^ 2)

/-- `Actor.glide_to` (actor.py lines 187-192): with
`target_vector = xy - position`, if its length is positive the body moves
by `target_vector.normalized() * speed`, i.e. to
`position + speed * (target_vector / length)`; otherwise nothing happens. -/
noncomputable def glide_to (pos xy : ℝ × ℝ) (speed : ℝ) : ℝ × ℝ :=
  if 0 < vlen (xy - pos) then
    pos + speed • ((vlen (xy - pos))⁻¹ • (xy - pos))
  else pos

/-- `n` successive calls of `glide_to xy speed` starting from `pos`. -/
noncomputable def glideN (pos xy : ℝ × ℝ) (speed : ℝ) : ℕ → ℝ × ℝ
  | 0 => pos
  | n + 1 => glide_to (glideN pos xy speed n) xy speed

/- ----------------------------------------------------------------- -/
/- Scheduler window-close handling: game.py lines 707-731, 836-843.   -/
/- ----------------------------------------------------------------- -/

/-- The QUIT branch of `game.update` (game.py lines 726-731): the local
`quit` starts as `True` and each registered handler's `on_quit()` result is
or-ed into it; `handlers` is the list of those boolean results in call
order. -/
def processQuitEvent (handlers : List Bool) : Bool :=
  handlers.foldl (fun q h => q || h) true

/-- One `game.update` tick restricted to its `_running` guard (game.py
lines 711-712) and the processing of a single `pygame.QUIT` event
(lines 726-731): when the or-fold yields true, `end()` (lines 836-843)
clears `_running`.  Returns the new `_running` flag. -/
def update_on_quit (running : Bool) (handlers : List Bool) : Bool :=
  if running = false then running
  else if processQuitEvent handlers then false
  else running

/- ----------------------------------------------------------------- -/
/- `Actor.apply_impulse_torque`: actor.py lines 131-143.              -/
/- ----------------------------------------------------------------- -/

/-- Python `float` (the type of `pymunk.Body.moment`) has no method named
`iszero`: its attribute set is fixed and the name is absent, so the lookup
on actor.py line 140 raises `AttributeError`. -/
def floatHasAttr_iszero : Bool := false

/-- `Actor.apply_impulse_torque` (actor.py lines 131-143) acting on the
body's `moment` and `angular_velocity`: line 140 evaluates
`self.shape.body.moment.iszero()`.  Were that attribute to exist as a
zero test, a zero moment would return with no change and otherwise
`angular_velocity` would grow by `impulse_torque / moment`; since it does
not, every call raises `AttributeError`. -/
def Actor.apply_impulse_torque (moment angular_velocity impulse_torque : ℚ) :
    Except String ℚ :=
  if floatHasAttr_iszero then
    if moment = 0 then Except.ok angular_velocity
    else Except.ok (angular_velocity + impulse_torque / moment)
  else Except.error "AttributeError: float object has no attribute iszero"

/- ----------------------------------------------------------------- -/
/- `Actor.touches` / `Actor.is_grounded`: actor.py lines 226-241,     -/
/- 324-335.                                                           -/
/- ----------------------------------------------------------------- -/

/-- One entry of a pymunk `shape_query` result, restricted to the fields
the actor layer reads: the contacted shape's id, the id of its body when
`s.shape is not None and s.shape.body is not None`, and the contact-point
set's normal. -/
structure QueryInfo where
  shape_id : ℕ
  body_id : Option ℕ
  normal : ℚ × ℚ
deriving DecidableEq

/-- The physics space as the actor layer sees it: a black box answering
`shape_query(shape)` with the list of overlapping shapes and their
contact data. -/
structure SpaceModel where
  shape_query : ℕ → List QueryInfo

/-- The argument of `Actor.touches`: `None`, a single actor, or a sequence
of actors — each actor abstracted to its shape id. -/
inductive TouchesArg where
  | noArg
  | one (shape : ℕ)
  | many (shapes : List ℕ)

/-- `Actor.touches` (actor.py lines 226-241): `False` when
`self.shape.space is None`; otherwise queries the space and either tests
the overlap set nonempty (no argument) or tests it against the given
actors' shapes. -/
def Actor.touches (space : Option SpaceModel) (selfShape : ℕ)
    (other : TouchesArg) : Bool :=
  match space with
  | none => false
  | some sp =>
    let colliding := sp.shape_query selfShape
    let others : List ℕ :=
      match other with
      | TouchesArg.noArg => []
      | TouchesArg.one s => [s]
      | TouchesArg.many ss => ss
    if others.length = 0 then decide (0 < colliding.length)
    else colliding.any (fun s => others.contains s.shape_id)

/-- `Actor.is_grounded` (actor.py lines 324-335): `False` when
`self.shape.space is None`; otherwise true iff some contacted shape has a
body other than the actor's own and a contact normal with positive `y`. -/
def Actor.is_grounded (space : Option SpaceModel) (selfShape selfBody : ℕ) :
    Bool :=
  match space with
  | none => false
  | some sp =>
    (sp.shape_query selfShape).any (fun s =>
      match s.body_id with
      | none => false
      | some b => decide (b ≠ selfBody) && decide (0 < s.normal.2))

/- ----------------------------------------------------------------- -/
/- Costume/text bookkeeping: actor.py lines 176-185, 291-295.         -/
/- ----------------------------------------------------------------- -/

/-- The costume/text bookkeeping state of an actor: the keys of
`self.costumes` and `self.texts`, and the name of the current costume
(`None` when `self.current_costume is None`). -/
structure ActorCT where
  costumes : List String
  current_costume : Option String
  texts : List String
deriving DecidableEq

/-- `Actor.set_cosume` (actor.py lines 181-185): `None` clears the current
costume; otherwise `self.costumes[name]` is looked up — raising `KeyError`
before any assignment when the name is absent — and assigned.  The result
pairs the (possibly unchanged) state with the raised error, if any. -/
def Actor.set_cosume (a : ActorCT) (name : Option String) :
    ActorCT × Option String :=
  match name with
  | none => ({ a with current_costume := none }, none)
  | some n =>
    if a.costumes.contains n then ({ a with current_costume := some n }, none)
    else (a, some "KeyError")

/-- `Actor.remove_costume` (actor.py lines 291-295): deletes the name if
present (a silent no-op otherwise) and clears the current costume when it
was the one removed. -/
def Actor.remove_costume (a : ActorCT) (name : String) : ActorCT :=
  if a.costumes.contains name then
    let a2 := { a with costumes := a.costumes.erase name }
    if a2.current_costume = some name then { a2 with current_costume := none }
    else a2
  else a

/-- `Actor.remove_text` (actor.py lines 176-179): the key is
`name or text` (Python `or`: a `None` or empty-string name falls back to
the text); deletion of an absent key is a silent no-op. -/
def Actor.remove_text (a : ActorCT) (text : String) (name : Option String) :
    ActorCT :=
  let key := match name with
    | none => text
    | some n => if n = "" then text else n
  if a.texts.contains key then { a with texts := a.texts.erase key }
  else a

/- ----------------------------------------------------------------- -/
/- Theorems.                                                          -/
/- ----------------------------------------------------------------- -/

/-- Helper: or-folding over a `True` seed can never come back `False`. -/
lemma processQuitEvent_eq_true (l : List Bool) : processQuitEvent l = true := by
  have key : ∀ (l : List Bool) (q : Bool), q = true → l.foldl (fun q h => q || h) q = true := by
    intro l
    induction l with
    | nil => intro q hq; simpa using hq
    | cons h t ih => intro q hq; simp [List.foldl, hq, ih]
  exact key l true rfl

/-- Claim C2 (scheduler window-close handling, code-bug evidence): in
`game.update` the local `quit` is initialised to `True` before the handler
results are or-ed in, so the fold returns `True` for every list of handler
results; in particular one registered close handler returning `False`
still drives the running flag to `False` (the scheduler stops), where the
claim says it should remain running. -/
theorem quit_event_always_stops :
    (∀ handlers : List Bool, processQuitEvent handlers = true)
    ∧ update_on_quit true [false] = false :=
  ⟨processQuitEvent_eq_true, by decide⟩

/-- Claim C3 (code-bug evidence): every call of `apply_impulse_torque`
raises `AttributeError`, because `float` has no `iszero` method — here
evaluated at a nonzero moment (2, impulse 4, where the claim promises the
angular velocity grows by 2) and at a zero moment (where the claim
promises a silent no-op). -/
theorem apply_impulse_torque_raises_attribute_error :
    Actor.apply_impulse_torque 2 0 4
      = Except.error "AttributeError: float object has no attribute iszero"
    ∧ Actor.apply_impulse_torque 0 5 3
      = Except.error "AttributeError: float object has no attribute iszero" :=
  ⟨rfl, rfl⟩

/-- Claim C5: for any camera whose state is the default one — angle 0,
scale 1, position the origin — `apply` returns its input unchanged, for
every point list and every flag combination. -/
theorem camera_identity_default (c : Camera) (pts : List (ℝ × ℝ))
    (tf sf rf : Bool) (h1 : c.angle = 0) (h2 : c.scale = 1)
    (h3 : c.bottom_left = (0, 0)) :
    c.apply pts tf sf rf = pts := by
  unfold Camera.apply
  rw [if_pos ⟨h1, h2, h3⟩]

/-- Witness for C5: the freshly constructed camera satisfies the three
hypotheses and leaves a concrete point list unchanged. -/
theorem camera_identity_default_witness :
    Camera.new.angle = 0 ∧ Camera.new.scale = 1 ∧ Camera.new.bottom_left = (0, 0)
    ∧ Camera.new.apply [((3 : ℝ), 4), (-1, 2)] true true true
        = [((3 : ℝ), 4), (-1, 2)] := by
  have h1 : Camera.new.angle = 0 := by
    unfold Camera.new Camera.update_transform
    split <;> rfl
  have h2 : Camera.new.scale = 1 := by
    unfold Camera.new Camera.update_transform
    split <;> rfl
  have h3 : Camera.new.bottom_left = (0, 0) := by
    unfold Camera.new Camera.update_transform
    split <;> rfl
  exact ⟨h1, h2, h3,
    camera_identity_default Camera.new [((3 : ℝ), 4), (-1, 2)] true true true h1 h2 h3⟩

/-- Claim C7 counterexample: with a current costume holding one 8x8 image,
`fit_to_image` on the unsupported shape kind does not raise an
unsupported-shape error — as written it raises `AttributeError` (and does
so even for a supported `Circle`, so the error is not about the shape
kind), and with the evident `_images` intent restored the unsupported
shape is silently returned unchanged with no error at all. -/
theorem fit_to_image_silent_ignore_cex :
    Actor.fit_to_image PShape.other
        (some ⟨[(8, 8)], [(8, 8)], ⟨1/10, 0, true, false, 0⟩⟩) 4 4
      = Except.error attrErrorImages
    ∧ Actor.fit_to_image (PShape.circle 3 (0, 0))
        (some ⟨[(8, 8)], [(8, 8)], ⟨1/10, 0, true, false, 0⟩⟩) 4 4
      = Except.error attrErrorImages
    ∧ Actor.fit_to_image_intended PShape.other
        (some ⟨[(8, 8)], [(8, 8)], ⟨1/10, 0, true, false, 0⟩⟩) 4 4
      = Except.ok PShape.other :=
  ⟨rfl, rfl, rfl⟩

/-- Claim C7 as amended: `fit_to_image` never raises an unsupported-shape
error — with a current costume it raises `AttributeError` for every shape
kind before inspecting the shape; with the `_images` intent restored, an
unsupported shape kind is silently left unchanged even when the costume
has images; and `fit_image` never inspects the shape, its only errors
being index or division errors. -/
theorem fit_to_image_no_unsupported_shape_error (shape : PShape)
    (c : CostumeSpec) (w h : ℚ) (img : Img) (imgs : List Img) :
    Actor.fit_to_image shape (some c) w h = Except.error attrErrorImages
    ∧ Actor.fit_to_image_intended PShape.other
        (some { c with images := img :: imgs }) w h = Except.ok PShape.other
    ∧ (∀ (cc : Option CostumeSpec) (w2 h2 : ℚ) (msg : String),
        Actor.fit_image cc w2 h2 = Except.error msg →
        msg = "IndexError: list index out of range"
        ∨ msg = "ZeroDivisionError: float division by zero") := by
  refine ⟨rfl, rfl, ?_⟩
  intro cc w2 h2 msg hmsg
  match cc with
  | none => simp [Actor.fit_image] at hmsg
  | some cs =>
    by_cases h1 : cs.images.length = 0
    · simp [Actor.fit_image, h1] at hmsg
    · rcases hget : cs.get_image with _ | wh
      · left
        simp [Actor.fit_image, h1, hget] at hmsg
        exact hmsg.symm
      · by_cases hz : wh.1 = 0 ∨ wh.2 = 0
        · right
          simp [Actor.fit_image, h1, hget, Nat.cast_eq_zero, hz] at hmsg
          exact hmsg.symm
        · simp [Actor.fit_image, h1, hget, Nat.cast_eq_zero, hz] at hmsg

/-- Witness for C7 (instantiation at concrete arguments). -/
theorem fit_to_image_no_unsupported_shape_error_witness :
    Actor.fit_to_image PShape.other
        (some ⟨[(8, 8)], [(8, 8)], ⟨1/10, 0, true, false, 0⟩⟩) 4 4
      = Except.error attrErrorImages
    ∧ Actor.fit_to_image_intended PShape.other
        (some { (⟨[(8, 8)], [(8, 8)], ⟨1/10, 0, true, false, 0⟩⟩ : CostumeSpec)
                  with images := (8, 8) :: [] }) 4 4 = Except.ok PShape.other
    ∧ (∀ (cc : Option CostumeSpec) (w2 h2 : ℚ) (msg : String),
        Actor.fit_image cc w2 h2 = Except.error msg →
        msg = "IndexError: list index out of range"
        ∨ msg = "ZeroDivisionError: float division by zero") :=
  fit_to_image_no_unsupported_shape_error PShape.other
    ⟨[(8, 8)], [(8, 8)], ⟨1/10, 0, true, false, 0⟩⟩ 4 4 (8, 8) []

/-- Claim C9: an actor whose shape is registered with no physics space
(`shape.space is None`) reports `touches` false for every argument shape
and `is_grounded` false, with no error raised on either path. -/
theorem touches_is_grounded_no_space (selfShape selfBody : ℕ)
    (other : TouchesArg) :
    Actor.touches none selfShape other = false
    ∧ Actor.is_grounded none selfShape selfBody = false :=
  ⟨rfl, rfl⟩

/-- Claim C10: `set_cosume` with an absent name raises `KeyError` and
leaves the whole costume/text state — in particular the current costume —
unchanged, `set_cosume None` succeeds and clears the current costume,
while `remove_costume` and `remove_text` are silent no-ops on absent
names. -/
theorem set_cosume_keyerror_contrast (a : ActorCT) (n m : String)
    (hn : n ∉ a.costumes) (hm : m ∉ a.texts) :
    Actor.set_cosume a (some n) = (a, some "KeyError")
    ∧ Actor.set_cosume a none = ({ a with current_costume := none }, none)
    ∧ Actor.remove_costume a n = a
    ∧ Actor.remove_text a m none = a := by
  refine ⟨?_, rfl, ?_, ?_⟩
  · simp [Actor.set_cosume, hn]
  · simp [Actor.remove_costume, hn]
  · simp [Actor.remove_text, hm]

/-- Witness for C10: a concrete actor state with costume "hero" current,
looking up the absent "ghost" and removing the absent text "bye". -/
theorem set_cosume_keyerror_contrast_witness :
    "ghost" ∉ (ActorCT.mk ["hero"] (some "hero") ["hi"]).costumes
    ∧ "bye" ∉ (ActorCT.mk ["hero"] (some "hero") ["hi"]).texts
    ∧ (Actor.set_cosume (ActorCT.mk ["hero"] (some "hero") ["hi"]) (some "ghost")
        = (ActorCT.mk ["hero"] (some "hero") ["hi"], some "KeyError")
      ∧ Actor.set_cosume (ActorCT.mk ["hero"] (some "hero") ["hi"]) none
        = ({ ActorCT.mk ["hero"] (some "hero") ["hi"] with current_costume := none }, none)
      ∧ Actor.remove_costume (ActorCT.mk ["hero"] (some "hero") ["hi"]) "ghost"
        = ActorCT.mk ["hero"] (some "hero") ["hi"]
      ∧ Actor.remove_text (ActorCT.mk ["hero"] (some "hero") ["hi"]) "bye" none
        = ActorCT.mk ["hero"] (some "hero") ["hi"]) :=
  ⟨by decide, by decide,
    set_cosume_keyerror_contrast (ActorCT.mk ["hero"] (some "hero") ["hi"])
      "ghost" "bye" (by decide) (by decide)⟩

/-- Helper: `runUpdates` over a stopped animation is the identity. -/
lemma runUpdates_not_started (N : ℤ) (ts : List ℚ) :
    ∀ a : AnimationSpec, a.started = false → runUpdates a N ts = a := by
  induction ts with
  | nil => intro a _; rfl
  | cons τ rest ih =>
    intro a ha
    have hstep : a.update N τ = a := by
      simp [AnimationSpec.update, ha]
    show runUpdates (a.update N τ) N rest = a
    rw [hstep]
    exact ih a ha

/-- Helper: one advancing `update` of a running looping animation at index
`j ∈ [0, N)` yields the running looping state at index `(j+1) % N` with
the timer rebased. -/
lemma update_loop_step (N : ℤ) (t last τ : ℚ) (j : ℤ) (hN : 1 ≤ N)
    (h0 : 0 ≤ j) (h1 : j < N) (hτ : t < τ - last) :
    AnimationSpec.update ⟨t, last, true, true, j⟩ N τ
      = ⟨t, τ, true, true, (j + 1) % N⟩ := by
  simp only [AnimationSpec.update, AnimationSpec.stop]
  rw [if_neg (by simp), if_pos hτ]
  by_cases hend : N ≤ j + 1
  · have hj : j + 1 = N := by omega
    rw [if_pos hend]
    simp [hj]
  · rw [if_neg hend]
    have : (j + 1) % N = j + 1 := Int.emod_eq_of_lt (by omega) (by omega)
    simp [this]

/-- Helper: a run of advancing updates on a running looping animation adds
one frame per call, modulo the image count. -/
lemma runUpdates_loop_true (N : ℤ) (t : ℚ) (hN : 1 ≤ N) :
    ∀ (ts : List ℚ) (last : ℚ) (j : ℤ), 0 ≤ j → j < N →
      advancingb t last ts = true →
      (runUpdates ⟨t, last, true, true, j⟩ N ts).image_index
        = (j + ts.length) % N := by
  intro ts
  induction ts with
  | nil =>
    intro last j h0 h1 _
    simpa using (Int.emod_eq_of_lt h0 h1).symm
  | cons τ rest ih =>
    intro last j h0 h1 hadv
    rw [advancingb, Bool.and_eq_true, decide_eq_true_eq] at hadv
    obtain ⟨hτ, hadv2⟩ := hadv
    show (runUpdates (AnimationSpec.update ⟨t, last, true, true, j⟩ N τ) N rest).image_index = _
    rw [update_loop_step N t last τ j hN h0 h1 hτ]
    rw [ih τ ((j + 1) % N) (Int.emod_nonneg _ (by omega))
      (Int.emod_lt_of_pos _ (by omega)) hadv2]
    rw [Int.emod_add_emod]
    congr 1
    push_cast [List.length_cons]
    ring

/-- Helper: a run of advancing updates on a running non-looping animation
counts up to the last frame, then stops there. -/
lemma runUpdates_loop_false (N : ℤ) (t : ℚ) (hN : 1 ≤ N) :
    ∀ (ts : List ℚ) (last : ℚ) (j : ℤ), 0 ≤ j → j < N →
      advancingb t last ts = true →
      (j + ts.length < N →
        (runUpdates ⟨t, last, false, true, j⟩ N ts).image_index = j + ts.length
        ∧ (runUpdates ⟨t, last, false, true, j⟩ N ts).started = true)
      ∧ (N ≤ j + ts.length →
        (runUpdates ⟨t, last, false, true, j⟩ N ts).image_index = N - 1
        ∧ (runUpdates ⟨t, last, false, true, j⟩ N ts).started = false) := by
  intro ts
  induction ts with
  | nil =>
    intro last j h0 h1 _
    constructor
    · intro _
      constructor
      · simp [runUpdates]
      · simp [runUpdates]
    · intro hcon
      exfalso
      simp at hcon
      omega
  | cons τ rest ih =>
    intro last j h0 h1 hadv
    rw [advancingb, Bool.and_eq_true, decide_eq_true_eq] at hadv
    obtain ⟨hτ, hadv2⟩ := hadv
    have hstep : AnimationSpec.update ⟨t, last, false, true, j⟩ N τ
        = if N ≤ j + 1 then ⟨t, τ, false, false, j⟩ else ⟨t, τ, false, true, j + 1⟩ := by
      simp only [AnimationSpec.update, AnimationSpec.stop]
      rw [if_neg (by simp), if_pos hτ]
      by_cases hend : N ≤ j + 1
      · rw [if_pos hend, if_pos hend]
        simp
      · rw [if_neg hend, if_neg hend]
    have hrun : runUpdates ⟨t, last, false, true, j⟩ N (τ :: rest)
        = runUpdates (AnimationSpec.update ⟨t, last, false, true, j⟩ N τ) N rest := rfl
    rw [hrun, hstep]
    by_cases hend : N ≤ j + 1
    · rw [if_pos hend]
      rw [runUpdates_not_started N rest _ rfl]
      have hj : j + 1 = N := by omega
      constructor
      · intro hcon; exfalso; simp at hcon; omega
      · intro _; constructor
        · simp; omega
        · rfl
    · rw [if_neg hend]
      have := ih τ (j + 1) (by omega) (by omega) hadv2
      constructor
      · intro hlt
        have h := this.1 (by simp at hlt ⊢; omega)
        refine ⟨?_, h.2⟩
        rw [h.1]
        simp
        ring
      · intro hge
        exact this.2 (by simp at hge ⊢; omega)

/-- Claim C4 counterexample: a non-looping two-frame animation with frame
time 1 started at time 0: after its first frame advance (elapsed time
`(N-1)*t`, one `update` call per frame advance) the frame index is the
last one, `N-1 = 1`, but `started` is still `true` — the animation is not
in the `Stopped` state the claim requires; it only stops one frame time
later. -/
theorem animation_not_stopped_at_penultimate_cex :
    ((AnimationSpec.start ⟨1/10, 0, true, false, 0⟩ false 0 1 0).update 2 2).image_index = 2 - 1
    ∧ ((AnimationSpec.start ⟨1/10, 0, true, false, 0⟩ false 0 1 0).update 2 2).started = true := by
  norm_num [AnimationSpec.start, AnimationSpec.update, AnimationSpec.stop]

/-- Claim C4 as amended: under one `update` call per frame advance (each
call more than one frame time after the previous advance), a looping
animation started at index 0 sits at frame `k mod N` after `k` advancing
calls; a non-looping one reaches and keeps frame index `N-1` from the
`(N-1)`-th advancing call on, is still `Running` at exactly `N-1`
advancing calls, and transitions to `Stopped` from the `N`-th; `update`
is a no-op when the animation is not started. -/
theorem animation_framing (a0 : AnimationSpec) (N : ℤ) (t τ0 : ℚ)
    (ts : List ℚ) (hN : 1 ≤ N) (hadv : advancingb t τ0 ts = true) :
    (runUpdates (a0.start true 0 t τ0) N ts).image_index = (ts.length : ℤ) % N
    ∧ (N - 1 ≤ (ts.length : ℤ) →
        (runUpdates (a0.start false 0 t τ0) N ts).image_index = N - 1)
    ∧ ((ts.length : ℤ) = N - 1 →
        (runUpdates (a0.start false 0 t τ0) N ts).started = true)
    ∧ (N ≤ (ts.length : ℤ) →
        (runUpdates (a0.start false 0 t τ0) N ts).started = false)
    ∧ (∀ b : AnimationSpec, b.started = false → ∀ now, b.update N now = b) := by
  have hzero : (0 : ℤ) < N := by omega
  have hstart_t : a0.start true 0 t τ0 = ⟨t, τ0, true, true, 0⟩ := rfl
  have hstart_f : a0.start false 0 t τ0 = ⟨t, τ0, false, true, 0⟩ := rfl
  have hfalse := runUpdates_loop_false N t hN ts τ0 0 le_rfl hzero hadv
  refine ⟨?_, ?_, ?_, ?_, ?_⟩
  · rw [hstart_t, runUpdates_loop_true N t hN ts τ0 0 le_rfl hzero hadv]
    simp
  · intro hge
    rw [hstart_f]
    by_cases hlt : (0 : ℤ) + ts.length < N
    · have h := hfalse.1 hlt
      rw [h.1]; omega
    · exact (hfalse.2 (by omega)).1
  · intro heq
    rw [hstart_f]
    exact (hfalse.1 (by omega)).2
  · intro hge
    rw [hstart_f]
    exact (hfalse.2 (by omega)).2
  · intro b hb now
    simp [AnimationSpec.update, hb]

/-- Witness for C4: three advancing calls on a three-frame animation. -/
theorem animation_framing_witness :
    (1 : ℤ) ≤ 3 ∧ advancingb 1 0 [2, 4, 6] = true
    ∧ ((runUpdates ((⟨1/10, 0, true, false, 0⟩ : AnimationSpec).start true 0 1 0) 3 [2, 4, 6]).image_index
          = (([2, 4, 6] : List ℚ).length : ℤ) % 3
      ∧ ((3 : ℤ) - 1 ≤ (([2, 4, 6] : List ℚ).length : ℤ) →
          (runUpdates ((⟨1/10, 0, true, false, 0⟩ : AnimationSpec).start false 0 1 0) 3 [2, 4, 6]).image_index = 3 - 1)
      ∧ ((([2, 4, 6] : List ℚ).length : ℤ) = 3 - 1 →
          (runUpdates ((⟨1/10, 0, true, false, 0⟩ : AnimationSpec).start false 0 1 0) 3 [2, 4, 6]).started = true)
      ∧ ((3 : ℤ) ≤ (([2, 4, 6] : List ℚ).length : ℤ) →
          (runUpdates ((⟨1/10, 0, true, false, 0⟩ : AnimationSpec).start false 0 1 0) 3 [2, 4, 6]).started = false)
      ∧ (∀ b : AnimationSpec, b.started = false → ∀ now, b.update 3 now = b)) :=
  ⟨by norm_num, by norm_num [advancingb],
    animation_framing ⟨1/10, 0, true, false, 0⟩ 3 1 0 [2, 4, 6] (by norm_num)
      (by norm_num [advancingb])⟩

/-- Helper: one `update` call keeps a frame index within `[0, N)` for any
positive image count `N`. -/
lemma update_index_bounds (a : AnimationSpec) (N : ℤ) (now : ℚ)
    (hN : 1 ≤ N) (h0 : 0 ≤ a.image_index) (h1 : a.image_index < N) :
    0 ≤ (a.update N now).image_index ∧ (a.update N now).image_index < N := by
  simp only [AnimationSpec.update, AnimationSpec.stop]
  split_ifs <;> simp_all <;> omega

/-- Helper: any sequence of `update` calls keeps a frame index within
`[0, N)`. -/
lemma runUpdates_index_bounds (N : ℤ) (hN : 1 ≤ N) :
    ∀ (ts : List ℚ) (a : AnimationSpec), 0 ≤ a.image_index →
      a.image_index < N →
      0 ≤ (runUpdates a N ts).image_index
      ∧ (runUpdates a N ts).image_index < N := by
  intro ts
  induction ts with
  | nil => intro a h0 h1; exact ⟨h0, h1⟩
  | cons τ rest ih =>
    intro a h0 h1
    have hb := update_index_bounds a N τ hN h0 h1
    exact ih (a.update N τ) hb.1 hb.2

/-- Helper: costume updates leave the image lists untouched and act on the
animation exactly as `runUpdates` with `len(_images)`. -/
lemma runCostumeUpdates_spec :
    ∀ (ts : List ℚ) (c : CostumeSpec),
      (runCostumeUpdates c ts).images = c.images
      ∧ (runCostumeUpdates c ts).scaled_images = c.scaled_images
      ∧ (runCostumeUpdates c ts).animation
          = runUpdates c.animation c.images.length ts := by
  intro ts
  induction ts with
  | nil => intro c; exact ⟨rfl, rfl, rfl⟩
  | cons τ rest ih => intro c; exact ih (c.update τ)

/-- Helper: a Python index in `[0, len)` is valid. -/
lemma pyGet_isSome {α : Type} (l : List α) (i : ℤ) (h0 : 0 ≤ i)
    (h1 : i < l.length) : (pyGet l i).isSome := by
  unfold pyGet
  rw [if_pos h0]
  have hlt : i.toNat < l.length := by omega
  rw [List.get?_eq_getElem?]
  simp [hlt]

/-- Claim C8: starting a costume's animation at a frame index within
`[0, N-1]` (N ≥ 1 images, scaled copies in lockstep), every sequence of
`update` calls keeps the frame index within `[0, N-1]`, so `get_image`
always finds an image. -/
theorem animation_index_in_bounds (c0 : CostumeSpec) (loop : Bool) (i : ℤ)
    (t now : ℚ) (ts : List ℚ)
    (hN : 1 ≤ (c0.images.length : ℤ))
    (hlen : c0.scaled_images.length = c0.images.length)
    (hi0 : 0 ≤ i) (hiN : i < (c0.images.length : ℤ)) :
    (0 ≤ (runCostumeUpdates { c0 with animation := c0.animation.start loop i t now } ts).animation.image_index
      ∧ (runCostumeUpdates { c0 with animation := c0.animation.start loop i t now } ts).animation.image_index
          < (c0.images.length : ℤ))
    ∧ (runCostumeUpdates { c0 with animation := c0.animation.start loop i t now } ts).get_image.isSome := by
  have hspec := runCostumeUpdates_spec ts { c0 with animation := c0.animation.start loop i t now }
  obtain ⟨him, hsc, han⟩ := hspec
  have hb := runUpdates_index_bounds (c0.images.length : ℤ) hN ts
    (c0.animation.start loop i t now) hi0 hiN
  refine ⟨?_, ?_⟩
  · rw [han]
    exact hb
  · unfold CostumeSpec.get_image
    rw [hsc, han]
    exact pyGet_isSome c0.scaled_images _ hb.1 (by rw [hlen]; exact_mod_cast hb.2)

/-- Witness for C8: a two-image costume whose non-looping animation starts
at the last frame, updated three times. -/
theorem animation_index_in_bounds_witness :
    (1 : ℤ) ≤ (((⟨[(4, 4), (5, 5)], [(4, 4), (5, 5)], ⟨1/10, 0, true, false, 0⟩⟩ : CostumeSpec)).images.length : ℤ)
    ∧ ((⟨[(4, 4), (5, 5)], [(4, 4), (5, 5)], ⟨1/10, 0, true, false, 0⟩⟩ : CostumeSpec)).scaled_images.length
        = ((⟨[(4, 4), (5, 5)], [(4, 4), (5, 5)], ⟨1/10, 0, true, false, 0⟩⟩ : CostumeSpec)).images.length
    ∧ (0 : ℤ) ≤ 1
    ∧ (1 : ℤ) < (((⟨[(4, 4), (5, 5)], [(4, 4), (5, 5)], ⟨1/10, 0, true, false, 0⟩⟩ : CostumeSpec)).images.length : ℤ)
    ∧ ((0 ≤ (runCostumeUpdates { (⟨[(4, 4), (5, 5)], [(4, 4), (5, 5)], ⟨1/10, 0, true, false, 0⟩⟩ : CostumeSpec) with
              animation := (⟨[(4, 4), (5, 5)], [(4, 4), (5, 5)], ⟨1/10, 0, true, false, 0⟩⟩ : CostumeSpec).animation.start false 1 1 0 } [2, 3, 5]).animation.image_index
        ∧ (runCostumeUpdates { (⟨[(4, 4), (5, 5)], [(4, 4), (5, 5)], ⟨1/10, 0, true, false, 0⟩⟩ : CostumeSpec) with
              animation := (⟨[(4, 4), (5, 5)], [(4, 4), (5, 5)], ⟨1/10, 0, true, false, 0⟩⟩ : CostumeSpec).animation.start false 1 1 0 } [2, 3, 5]).animation.image_index
            < (((⟨[(4, 4), (5, 5)], [(4, 4), (5, 5)], ⟨1/10, 0, true, false, 0⟩⟩ : CostumeSpec)).images.length : ℤ))
      ∧ (runCostumeUpdates { (⟨[(4, 4), (5, 5)], [(4, 4), (5, 5)], ⟨1/10, 0, true, false, 0⟩⟩ : CostumeSpec) with
              animation := (⟨[(4, 4), (5, 5)], [(4, 4), (5, 5)], ⟨1/10, 0, true, false, 0⟩⟩ : CostumeSpec).animation.start false 1 1 0 } [2, 3, 5]).get_image.isSome) :=
  ⟨by norm_num, rfl, by norm_num, by norm_num,
    animation_index_in_bounds ⟨[(4, 4), (5, 5)], [(4, 4), (5, 5)], ⟨1/10, 0, true, false, 0⟩⟩
      false 1 1 0 [2, 3, 5] (by norm_num) rfl (by norm_num) (by norm_num)⟩

/-- Helper: `radians 0 = 0`. -/
lemma radians_zero : radians 0 = 0 := by
  unfold radians
  ring

/-- Helper: rotating by angle 0 is the identity. -/
lemma rotatePoint_zero (q : ℝ × ℝ) : rotatePoint 0 q = q := by
  unfold rotatePoint
  refine Prod.ext ?_ ?_ <;> simp

/-- Helper: a row vector times the scaling matrix is the scaled vector. -/
lemma rowMul_scale (s : ℝ) (p : ℝ × ℝ) : rowMul p ⟨s, 0, 0, s⟩ = s • p := by
  unfold rowMul
  refine Prod.ext ?_ ?_ <;> simp [smul_eq_mul] <;> ring

/-- Helper: a row vector times the transposed identity is itself. -/
lemma rowMul_eyeT (q : ℝ × ℝ) : rowMul q Mat2.eye.transpose = q := by
  unfold rowMul Mat2.transpose Mat2.eye
  refine Prod.ext ?_ ?_ <;> simp

/-- Helper: a row vector times the transposed rotation matrix is the
column-rotated vector. -/
lemma rowMul_rotT (θ : ℝ) (q : ℝ × ℝ) :
    rowMul q (Mat2.transpose ⟨Real.cos θ, -Real.sin θ, Real.sin θ, Real.cos θ⟩)
      = rotatePoint θ q := by
  unfold rowMul Mat2.transpose rotatePoint
  refine Prod.ext ?_ ?_ <;> simp <;> ring

/-- Helper: off the identity fast path, `apply` with all flags on is the
pointwise scale-rotate-translate map. -/
lemma camera_apply_slow (c : Camera) (pts : List (ℝ × ℝ))
    (h : ¬(c.angle = 0 ∧ c.scale = 1 ∧ c.bottom_left = (0, 0))) :
    c.apply pts true true true
      = pts.map (fun p =>
          rowMul (rowMul p c.scaling_matrix) c.rotation_matrix.transpose
            - c.bottom_left) := by
  unfold Camera.apply
  rw [if_neg h]
  simp only [if_pos rfl, ite_true]

/-- Claim C6: for every reachable camera state — any field values passed
through `_update_transform`, which every mutator and the constructor
call — `apply` (all flags at their default `True`) maps each point `p` to
`R(radians angle) · (scale · p) − bottom_left`: scale about the origin,
then rotate about the origin, then translate by the negated camera
position. -/
theorem camera_apply_affine_contract (bl : ℝ × ℝ) (ang s θ0 : ℝ)
    (R0 S0 : Mat2) (pts : List (ℝ × ℝ)) :
    (Camera.update_transform ⟨bl, ang, s, θ0, R0, S0⟩).apply pts true true true
      = pts.map (fun p => rotatePoint (radians ang) (s • p) - bl) := by
  by_cases hang : ang = 0
  · subst hang
    have hct : Camera.update_transform ⟨bl, 0, s, θ0, R0, S0⟩
        = ⟨bl, 0, s, 0, Mat2.eye, ⟨s, 0, 0, s⟩⟩ := by
      unfold Camera.update_transform
      rw [if_pos rfl]
    rw [hct]
    by_cases hfast : s = 1 ∧ bl = (0, 0)
    · obtain ⟨hs, hb⟩ := hfast
      subst hs
      subst hb
      have hid : Camera.apply ⟨(0, 0), 0, 1, 0, Mat2.eye, ⟨1, 0, 0, 1⟩⟩ pts true true true
          = pts := by
        unfold Camera.apply
        rw [if_pos ⟨rfl, rfl, rfl⟩]
      rw [hid]
      symm
      rw [show (fun p : ℝ × ℝ => rotatePoint (radians 0) ((1 : ℝ) • p) - ((0 : ℝ), (0 : ℝ)))
            = id from funext fun p => by
              simp [radians_zero, rotatePoint_zero, Prod.mk_zero_zero],
          List.map_id]
    · rw [camera_apply_slow _ pts (fun hcon => hfast ⟨hcon.2.1, hcon.2.2⟩)]
      refine List.map_congr_left ?_
      intro p _
      show rowMul (rowMul p ⟨s, 0, 0, s⟩) Mat2.eye.transpose - bl
            = rotatePoint (radians 0) (s • p) - bl
      rw [rowMul_scale, rowMul_eyeT, radians_zero, rotatePoint_zero]
  · have hct : Camera.update_transform ⟨bl, ang, s, θ0, R0, S0⟩
        = ⟨bl, ang, s, radians ang,
            ⟨Real.cos (radians ang), -Real.sin (radians ang),
             Real.sin (radians ang), Real.cos (radians ang)⟩, ⟨s, 0, 0, s⟩⟩ := by
      unfold Camera.update_transform
      rw [if_neg hang]
    rw [hct, camera_apply_slow _ pts (fun hcon => hang hcon.1)]
    refine List.map_congr_left ?_
    intro p _
    show rowMul (rowMul p ⟨s, 0, 0, s⟩)
          (Mat2.transpose ⟨Real.cos (radians ang), -Real.sin (radians ang),
                           Real.sin (radians ang), Real.cos (radians ang)⟩) - bl
          = rotatePoint (radians ang) (s • p) - bl
    rw [rowMul_scale, rowMul_rotT]

/-- Helper: lengths are nonnegative. -/
lemma vlen_nonneg (v : ℝ × ℝ) : 0 ≤ vlen v := Real.sqrt_nonneg _

/-- Helper: only the zero vector has zero length. -/
lemma vlen_eq_zero_iff (v : ℝ × ℝ) : vlen v = 0 ↔ v = 0 := by
  unfold vlen
  rw [Real.sqrt_eq_zero (by positivity)]
  constructor
  · intro h
    have h1 : v.1 = 0 := by nlinarith [sq_nonneg v.1, sq_nonneg v.2]
    have h2 : v.2 = 0 := by nlinarith [sq_nonneg v.1, sq_nonneg v.2]
    exact Prod.ext h1 h2
  · intro h
    rw [h]
    norm_num

/-- Helper: the zero vector has zero length. -/
lemma vlen_zero : vlen (0 : ℝ × ℝ) = 0 := (vlen_eq_zero_iff 0).mpr rfl

/-- Helper: nonzero vectors have positive length. -/
lemma vlen_pos_of_ne (v : ℝ × ℝ) (h : v ≠ 0) : 0 < vlen v :=
  lt_of_le_of_ne (vlen_nonneg v) (fun he => h ((vlen_eq_zero_iff v).mp he.symm))

/-- Helper: length scales by the absolute scalar. -/
lemma vlen_smul (c : ℝ) (v : ℝ × ℝ) : vlen (c • v) = |c| * vlen v := by
  unfold vlen
  have h1 : (c • v).1 = c * v.1 := rfl
  have h2 : (c • v).2 = c * v.2 := rfl
  rw [h1, h2,
    show (c * v.1) ^ 2 + (c * v.2) ^ 2 = c ^ 2 * (v.1 ^ 2 + v.2 ^ 2) by ring,
    Real.sqrt_mul (sq_nonneg c), Real.sqrt_sq_eq_abs]

/-- Helper: gliding while already at the target is a no-op. -/
lemma glide_to_at_target (xy : ℝ × ℝ) (speed : ℝ) :
    glide_to xy xy speed = xy := by
  unfold glide_to
  rw [sub_self, vlen_zero, if_neg (lt_irrefl 0)]

/-- Helper: away from the target, one glide step is the normalised
direction scaled by `speed`. -/
lemma glide_to_step (pos xy : ℝ × ℝ) (speed : ℝ) (h : pos ≠ xy) :
    glide_to pos xy speed
      = pos + speed • ((vlen (xy - pos))⁻¹ • (xy - pos)) := by
  unfold glide_to
  rw [if_pos (vlen_pos_of_ne _ (sub_ne_zero.mpr (Ne.symm h)))]

/-- Helper: away from the target, one glide step moves exactly `speed`. -/
lemma glide_to_displacement (pos xy : ℝ × ℝ) (speed : ℝ) (h : pos ≠ xy)
    (hs : 0 ≤ speed) : vlen (glide_to pos xy speed - pos) = speed := by
  have hd : 0 < vlen (xy - pos) :=
    vlen_pos_of_ne _ (sub_ne_zero.mpr (Ne.symm h))
  rw [glide_to_step pos xy speed h, add_sub_cancel_left, smul_smul, vlen_smul,
    abs_of_nonneg (mul_nonneg hs (inv_nonneg.mpr hd.le)), mul_assoc,
    inv_mul_cancel₀ hd.ne', mul_one]

/-- Helper: one glide step changes the distance to the target from `d`
to `|d - speed|`. -/
lemma glide_to_dist (pos xy : ℝ × ℝ) (speed : ℝ) (h : pos ≠ xy) :
    vlen (xy - glide_to pos xy speed) = |vlen (xy - pos) - speed| := by
  have hd : 0 < vlen (xy - pos) :=
    vlen_pos_of_ne _ (sub_ne_zero.mpr (Ne.symm h))
  rw [glide_to_step pos xy speed h]
  have hvec : xy - (pos + speed • ((vlen (xy - pos))⁻¹ • (xy - pos)))
      = (1 - speed * (vlen (xy - pos))⁻¹) • (xy - pos) := by
    rw [sub_add_eq_sub_sub, smul_smul, sub_smul, one_smul]
  rw [hvec, vlen_smul,
    show |1 - speed * (vlen (xy - pos))⁻¹| * vlen (xy - pos)
        = |(1 - speed * (vlen (xy - pos))⁻¹) * vlen (xy - pos)| by
      rw [abs_mul, abs_of_nonneg hd.le]]
  congr 1
  field_simp

/-- Helper: iterating from the front. -/
lemma glideN_succ_front (pos xy : ℝ × ℝ) (speed : ℝ) :
    ∀ n, glideN pos xy speed (n + 1)
      = glideN (glide_to pos xy speed) xy speed n := by
  intro n
  induction n with
  | zero => rfl
  | succ m ih =>
    show glide_to (glideN pos xy speed (m + 1)) xy speed = _
    rw [ih]
    rfl

/-- Helper: when the distance is an exact multiple `k * speed`, `k` calls
land on the target. -/
lemma glideN_exact (speed : ℝ) (hs : 0 < speed) :
    ∀ (k : ℕ) (pos xy : ℝ × ℝ), vlen (xy - pos) = k * speed →
      glideN pos xy speed k = xy := by
  intro k
  induction k with
  | zero =>
    intro pos xy hd
    have hz : xy - pos = 0 := (vlen_eq_zero_iff _).mp (by simpa using hd)
    exact (sub_eq_zero.mp hz).symm
  | succ m ih =>
    intro pos xy hd
    have hdpos : 0 < vlen (xy - pos) := by
      rw [hd]
      positivity
    have hne : pos ≠ xy := by
      intro he
      subst he
      rw [sub_self, vlen_zero] at hdpos
      exact lt_irrefl 0 hdpos
    rw [glideN_succ_front]
    apply ih
    rw [glide_to_dist pos xy speed hne, hd,
      show |((m + 1 : ℕ) : ℝ) * speed - speed| = (m : ℝ) * speed by
        rw [abs_of_nonneg (by push_cast; nlinarith)]
        push_cast
        ring]

/-- Helper: once on the target, every later call stays there. -/
lemma glideN_stay (pos xy : ℝ × ℝ) (speed : ℝ) (k : ℕ)
    (hk : glideN pos xy speed k = xy) :
    ∀ d, glideN pos xy speed (k + d) = xy := by
  intro d
  induction d with
  | zero => simpa using hk
  | succ e ih =>
    show glide_to (glideN pos xy speed (k + e)) xy speed = xy
    rw [ih, glide_to_at_target]

/-- Claim C1 counterexample: start `(0,0)`, target `(1,0)`, speed `2`.
The distance is 1 and `ceil(1/2) = 1`, but neither zero nor one call of
`glide_to` reaches the target: the single step overshoots to `(2,0)`,
so convergence within `ceil(distance/speed)` calls fails. -/
theorem glide_to_ceil_convergence_cex :
    (⌈vlen (((1 : ℝ), (0 : ℝ)) - ((0 : ℝ), (0 : ℝ))) / 2⌉ = 1)
    ∧ glideN ((0 : ℝ), (0 : ℝ)) ((1 : ℝ), (0 : ℝ)) 2 0 ≠ ((1 : ℝ), (0 : ℝ))
    ∧ glideN ((0 : ℝ), (0 : ℝ)) ((1 : ℝ), (0 : ℝ)) 2 1 ≠ ((1 : ℝ), (0 : ℝ)) := by
  have hv : vlen (((1 : ℝ), (0 : ℝ)) - ((0 : ℝ), (0 : ℝ))) = 1 := by
    unfold vlen
    rw [Prod.mk_sub_mk]
    norm_num
  refine ⟨?_, ?_, ?_⟩
  · rw [hv]
    rw [show ((1 : ℝ) / 2) = (2 : ℝ)⁻¹ by norm_num]
    rw [Int.ceil_eq_iff]
    constructor <;> norm_num
  · simp [glideN, Prod.ext_iff]
  · have hg : glide_to ((0 : ℝ), (0 : ℝ)) ((1 : ℝ), (0 : ℝ)) 2
        = ((2 : ℝ), (0 : ℝ)) := by
      rw [glide_to_step _ _ _ (by simp [Prod.ext_iff]), hv]
      rw [Prod.mk_sub_mk]
      norm_num [Prod.ext_iff, Prod.smul_mk, Prod.mk_add_mk]
    rw [show glideN ((0 : ℝ), (0 : ℝ)) ((1 : ℝ), (0 : ℝ)) 2 1
        = glide_to ((0 : ℝ), (0 : ℝ)) ((1 : ℝ), (0 : ℝ)) 2 from rfl, hg]
    simp [Prod.ext_iff]

/-- Claim C1 as amended: a `glide_to` call at the target is a no-op, a
call away from the target displaces the position by exactly `speed` along
the unit vector toward the target (so it overshoots when the remaining
distance is below `speed`), and when the starting distance is an exact
multiple `k * speed` the position reaches the target in `k` calls and
every later call leaves it there. -/
theorem glide_to_step_and_exact_convergence (pos xy : ℝ × ℝ) (speed : ℝ)
    (k : ℕ) (hs : 0 < speed) (hd : vlen (xy - pos) = k * speed) :
    glide_to xy xy speed = xy
    ∧ (∀ q : ℝ × ℝ, q ≠ xy →
        glide_to q xy speed = q + speed • ((vlen (xy - q))⁻¹ • (xy - q))
        ∧ vlen (glide_to q xy speed - q) = speed)
    ∧ glideN pos xy speed k = xy
    ∧ (∀ m, k ≤ m → glideN pos xy speed m = xy) := by
  refine ⟨glide_to_at_target xy speed, ?_, ?_, ?_⟩
  · intro q hq
    exact ⟨glide_to_step q xy speed hq,
           glide_to_displacement q xy speed hq hs.le⟩
  · exact glideN_exact speed hs k pos xy hd
  · intro m hm
    obtain ⟨d, rfl⟩ := Nat.exists_eq_add_of_le hm
    exact glideN_stay pos xy speed k (glideN_exact speed hs k pos xy hd) d

/-- Witness for C1: start `(0,0)`, target `(2,0)`, speed 1, distance
exactly `2 * 1`. -/
theorem glide_to_step_and_exact_convergence_witness :
    (0 : ℝ) < 1
    ∧ vlen (((2 : ℝ), (0 : ℝ)) - ((0 : ℝ), (0 : ℝ))) = ((2 : ℕ) : ℝ) * 1
    ∧ (glide_to ((2 : ℝ), (0 : ℝ)) ((2 : ℝ), (0 : ℝ)) 1 = ((2 : ℝ), (0 : ℝ))
      ∧ (∀ q : ℝ × ℝ, q ≠ ((2 : ℝ), (0 : ℝ)) →
          glide_to q ((2 : ℝ), (0 : ℝ)) 1
            = q + (1 : ℝ) • ((vlen (((2 : ℝ), (0 : ℝ)) - q))⁻¹ • (((2 : ℝ), (0 : ℝ)) - q))
          ∧ vlen (glide_to q ((2 : ℝ), (0 : ℝ)) 1 - q) = 1)
      ∧ glideN ((0 : ℝ), (0 : ℝ)) ((2 : ℝ), (0 : ℝ)) 1 2 = ((2 : ℝ), (0 : ℝ))
      ∧ (∀ m, 2 ≤ m → glideN ((0 : ℝ), (0 : ℝ)) ((2 : ℝ), (0 : ℝ)) 1 m = ((2 : ℝ), (0 : ℝ)))) := by
  have hv : vlen (((2 : ℝ), (0 : ℝ)) - ((0 : ℝ), (0 : ℝ))) = ((2 : ℕ) : ℝ) * 1 := by
    unfold vlen
    rw [Prod.mk_sub_mk]
    norm_num
    rw [show (4 : ℝ) = 2 ^ 2 by norm_num, Real.sqrt_sq (by norm_num)]
  exact ⟨by norm_num, hv,
    glide_to_step_and_exact_convergence ((0 : ℝ), (0 : ℝ)) ((2 : ℝ), (0 : ℝ)) 1 2
      (by norm_num) hv⟩
